import Mathlib

/-!
Verification of the NYC-taxi data-preparation pipeline from the
`cloud-ml-examples` Azure notebook (`clean`, the outlier `query`, and the
`add_features` feature kernels).

Modelling conventions:
* A dataframe is an ordered association list of named columns.
* cudf `float32`/`float64` cells are modelled as exact rationals (`ℚ`); no
  claim under verification depends on binary rounding of stored values.
  Where the float arithmetic of a kernel could in principle differ from exact
  arithmetic (the `m*2.6` product in the day-of-week kernel) the comment on
  the definition justifies that the exact value agrees on the reachable
  input range.
* `datetime64[ms]` cells are modelled as `Int` milliseconds since the Unix
  epoch; `int32`/`int64` cells as `Int` (the `astype(int32)` downcast is
  modelled by an explicit twos-complement wrap).
* The numba trigonometric kernels are modelled over `ℝ`.
* cudf library primitives used by the notebook (`rename`, `drop`, `fillna`,
  `astype`, `query`, the `dt` accessors) are modelled by their documented
  semantics; each model carries a comment saying what it stands for.
-/

namespace NycTaxi

/-- cudf column dtypes occurring in the notebook. -/
inductive DType
  | dt64ms
  | i32
  | i64
  | f32
  | f64
  | obj
deriving DecidableEq, Repr

/-- Column payload: the dtype together with the cell list (`none` = null).
Integer widths: `intCol 32` / `intCol 64`; float widths likewise. -/
inductive ColData
  | strCol (vs : List (Option String))
  | intCol (w : Nat) (vs : List (Option Int))
  | floatCol (w : Nat) (vs : List (Option ℚ))
  | dtCol (vs : List (Option Int))
deriving DecidableEq, Repr

/-- dtype of a column payload. -/
def dtypeOf : ColData → DType
  | .strCol _ => .obj
  | .intCol w _ => if w = 64 then .i64 else .i32
  | .floatCol w _ => if w = 64 then .f64 else .f32
  | .dtCol _ => .dt64ms

/-- A dataframe: ordered list of (column name, column payload). -/
abbrev DataFrame := List (String × ColData)

/-- Twos-complement wrap into `int32`, the effect of `astype(int32)` on a
wider integer value. -/
def toInt32 (n : Int) : Int :=
  (n + 2 ^ 31) % 2 ^ 32 - 2 ^ 31

/-- Numeric value of one decimal digit, `none` for a non-digit. -/
def digitVal (c : Char) : Option Nat :=
  if c.isDigit then some (c.toNat - 48) else none

/-- Value of a digit string read in base 10 (0 for the empty list). -/
def natOfDigits (cs : List Char) : Nat :=
  cs.foldl (fun acc c => 10 * acc + (c.toNat - 48)) 0

/-- Model of the cudf string-to-float conversion for plain decimal literals
(optional sign, integer part, optional fractional part).  Exponent forms are
not modelled; no value under verification uses them.  `none` means the
string is not a parseable number. -/
def parseFloatQ (s : String) : Option ℚ :=
  let cs := s.data
  let neg := cs.head? = some '-'
  let cs := if cs.head? = some '-' ∨ cs.head? = some '+' then cs.tail else cs
  let intPart := cs.takeWhile Char.isDigit
  let rest := cs.dropWhile Char.isDigit
  match rest with
  | [] =>
      if intPart.isEmpty then none
      else some (if neg then -(natOfDigits intPart : ℚ) else (natOfDigits intPart : ℚ))
  | '.' :: frac =>
      if frac.all Char.isDigit ∧ ¬(intPart.isEmpty ∧ frac.isEmpty) then
        let v : ℚ := (natOfDigits (intPart ++ frac) : ℚ) / (10 : ℚ) ^ frac.length
        some (if neg then -v else v)
      else none
  | _ => none

/-- The alias map of the notebook: raw-to-canonical column renames. -/
def remap : List (String × String) :=
  [("tpep_pickup_datetime", "pickup_datetime"),
   ("tpep_dropoff_datetime", "dropoff_datetime"),
   ("ratecodeid", "rate_code")]

/-- ASCII whitespace, the characters `str.strip()` removes from column names. -/
def isSpaceChar (c : Char) : Bool :=
  c == ' ' || c == '\t' || c == '\n' || c == '\r'

/-- ASCII lowercasing of one character, as `str.lower()` acts on the ASCII
column names of the dataset. -/
def lowerChar (c : Char) : Char :=
  if 'A' ≤ c ∧ c ≤ 'Z' then Char.ofNat (c.toNat + 32) else c

/-- `col.strip().lower()` applied to one column name: drop surrounding
whitespace, lowercase the rest. -/
def normName (s : String) : String :=
  ⟨((s.data.dropWhile isSpaceChar).reverse.dropWhile isSpaceChar).reverse.map lowerChar⟩

/-- Propositional equality test for `Except` results. -/
instance {ε α : Type} [DecidableEq ε] [DecidableEq α] : DecidableEq (Except ε α) :=
  fun a b =>
    match a, b with
    | .error x, .error y =>
        if h : x = y then isTrue (by rw [h]) else isFalse (by simp [h])
    | .ok x, .ok y =>
        if h : x = y then isTrue (by rw [h]) else isFalse (by simp [h])
    | .error _, .ok _ => isFalse (by simp)
    | .ok _, .error _ => isFalse (by simp)

/-- `df.rename(columns=remap)` on one name: replace when an alias, else keep. -/
def remapName (s : String) : String :=
  match remap.lookup s with
  | some t => t
  | none => s

/-- The `must_haves` schema of the notebook: canonical column names and dtypes. -/
def must_haves : List (String × DType) :=
  [("pickup_datetime", .dt64ms),
   ("dropoff_datetime", .dt64ms),
   ("passenger_count", .i32),
   ("trip_distance", .f32),
   ("pickup_longitude", .f32),
   ("pickup_latitude", .f32),
   ("rate_code", .i32),
   ("dropoff_longitude", .f32),
   ("dropoff_latitude", .f32),
   ("fare_amount", .f32)]

/-- Canonical column names, in schema order. -/
def mustHaveNames : List String := must_haves.map Prod.fst

/-- Declared dtype of a canonical column (`.obj` default never used on
canonical names). -/
def declaredDType (n : String) : DType :=
  (must_haves.lookup n).getD .obj

/-- Whether a (canonical) name is one of the two timestamp columns. -/
def tsCol (n : String) : Bool :=
  n == "pickup_datetime" || n == "dropoff_datetime"

/-- Model of `ser.str.fillna` with the string -1 followed by `ser.astype(float32)`:
nulls become the string "-1" first, then every cell is converted; a non-null
cell that is not a parseable number makes the cast fail (cudf rejects
non-numeric strings when casting to float). -/
def castStrToFloat32 (vs : List (Option String)) : Except String (List (Option ℚ)) :=
  let filled := vs.map (fun v => v.getD "-1")
  if filled.all (fun s => (parseFloatQ s).isSome) then
    .ok (filled.map parseFloatQ)
  else
    .error "could not convert string to float"

/-- Model of `ser.astype(datetime64-ms)` on a string column, with the
timestamp parser `dtp` standing for the cudf datetime parsing: nulls stay
null, a non-null unparseable cell makes the cast fail. -/
def castStrToDt (dtp : String → Option Int) (vs : List (Option String)) :
    Except String (List (Option Int)) :=
  if vs.all (fun v => match v with | none => true | some s => (dtp s).isSome) then
    .ok (vs.map (fun v => v.bind dtp))
  else
    .error "could not convert string to datetime"

/-- Per-column body of the `clean` loop of the notebook, for a column already
renamed to canonical name `col`:
* object dtype and `col` a timestamp column: `astype(datetime64-ms)`;
* any other object dtype: `str.fillna` with -1 then `astype(float32)`;
* integer dtype: `astype(int32)` (twos-complement wrap) then `fillna(-1)`;
* float dtype: `astype(float32)` then `fillna(-1)` (stored values exact in
  this model, so the downcast only changes the width tag);
* datetime dtype: neither `int` nor `float` occurs in the dtype string, so
  only `fillna(-1)` applies. -/
def cleanCol (dtp : String → Option Int) (col : String) (c : ColData) :
    Except String ColData :=
  match c with
  | .strCol vs =>
      if tsCol col then
        (castStrToDt dtp vs).map ColData.dtCol
      else
        (castStrToFloat32 vs).map (ColData.floatCol 32)
  | .intCol _ vs =>
      .ok (.intCol 32 (vs.map (fun v =>
        some (match v with | some n => toInt32 n | none => -1))))
  | .floatCol _ vs =>
      .ok (.floatCol 32 (vs.map (fun v => some (v.getD (-1)))))
  | .dtCol vs =>
      .ok (.dtCol (vs.map (fun v => some (v.getD (-1)))))

/-- The two renames at the top of `clean`: strip/lowercase every column name,
then apply the alias map. -/
def renameCols (df : DataFrame) : DataFrame :=
  df.map (fun p => (remapName (normName p.1), p.2))

/-- The function `clean(df_part, remap, must_haves)` of the notebook: rename, drop every
column whose (renamed) name is not in `must_haves`, then coerce each kept
column per `cleanCol`.  The loop iterates over the snapshot of the renamed
column list, so dropping and coercing commute into a filter followed by a
traversal; cudf raises out of the first failing cast, matching the `Except`
short-circuit. -/
def clean (dtp : String → Option Int) (df : DataFrame) : Except String DataFrame :=
  ((renameCols df).filter (fun p => mustHaveNames.contains p.1)).mapM
    (fun p => (cleanCol dtp p.1 p.2).map (fun c => (p.1, c)))

/-- A cleaned record: one row of the canonical schema.  Timestamps are
milliseconds since the Unix epoch; float32 cells are exact rationals. -/
structure Row where
  pickup_datetime : Int
  dropoff_datetime : Int
  passenger_count : Int
  trip_distance : ℚ
  pickup_longitude : ℚ
  pickup_latitude : ℚ
  rate_code : Int
  dropoff_longitude : ℚ
  dropoff_latitude : ℚ
  fare_amount : ℚ
deriving DecidableEq, Repr

/-- The combined predicate of the `query_frags` of the notebook, joined with
`and` before `df_2014.query`: all bounds strict. -/
def passesFilter (r : Row) : Bool :=
  (decide (0 < r.fare_amount) && decide (r.fare_amount < 500)) &&
  (decide (0 < r.passenger_count) && decide (r.passenger_count < 6)) &&
  (decide (-75 < r.pickup_longitude) && decide (r.pickup_longitude < -73)) &&
  (decide (-75 < r.dropoff_longitude) && decide (r.dropoff_longitude < -73)) &&
  (decide (40 < r.pickup_latitude) && decide (r.pickup_latitude < 42)) &&
  (decide (40 < r.dropoff_latitude) && decide (r.dropoff_latitude < 42))

/-- Model of `df_2014.query` on the conjunction of the six fragments: keep exactly the rows
satisfying the combined predicate. -/
def outlierFilter (rows : List Row) : List Row :=
  rows.filter passesFilter

/-- The `haversine_distance_kernel` of the notebook for one row, over `ℝ`
(modelling the float trigonometry of the kernel exactly): degree-to-radian
conversion, `a = sin²(Δlat/2) + cos(x₁)·cos(x₂)·sin²(Δlon/2)`,
`c = 2·asin(√a)`, result `c * 6371`. -/
noncomputable def haversine_distance_kernel (x1 y1 x2 y2 : ℝ) : ℝ :=
  let x1 := Real.pi / 180 * x1
  let y1 := Real.pi / 180 * y1
  let x2 := Real.pi / 180 * x2
  let y2 := Real.pi / 180 * y2
  let dlon := y2 - y1
  let dlat := x2 - x1
  let a := Real.sin (dlat / 2) ^ 2 +
    Real.cos x1 * Real.cos x2 * Real.sin (dlon / 2) ^ 2
  let c := 2 * Real.arcsin (Real.sqrt a)
  c * 6371

/-- The `day_of_the_week_kernel` of the notebook for one row.  Python `//` and `%`
are floor division and floor modulus, hence `Int.fdiv` / `Int.emod` (the
divisors are positive).  `math.floor(m*2.6)` is written `(26*m).fdiv 10`:
for every reachable `m` (months 1..12 give `m ∈ {3,...,13}`) the float64
product `m*2.6` lies in the same unit interval as the exact `26*m/10`, so
the floors agree. -/
def day_of_the_week_kernel (day month year : Int) : Int :=
  let shift : Int := if month < 3 then month else 0
  let bigY : Int := year - (if month < 3 then 1 else 0)
  let y : Int := bigY - 2000
  let c : Int := 20
  let d : Int := day
  let m : Int := month + shift + 1
  (d + (26 * m).fdiv 10 + y + y.fdiv 4 + c.fdiv 4 - 2 * c).emod 7

/-- Days since the Unix epoch of a millisecond timestamp (floor division,
matching the datetime accessors for pre-epoch instants too). -/
def dtDays (ms : Int) : Int := ms.fdiv 86400000

/-- Model of the cudf `dt.hour` accessor on `datetime64[ms]`. -/
def dtHour (ms : Int) : Int := (ms.fdiv 3600000).emod 24

/-- Proleptic Gregorian (year, month, day) of a days-since-epoch count: the
standard civil-from-days conversion, modelling the cudf `dt.year` /
`dt.month` / `dt.day` accessors. -/
def civilFromDays (z0 : Int) : Int × Int × Int :=
  let z := z0 + 719468
  let era := z.fdiv 146097
  let doe := z - era * 146097
  let yoe := (doe - doe.fdiv 1460 + doe.fdiv 36524 - doe.fdiv 146096).fdiv 365
  let y := yoe + era * 400
  let doy := doe - (365 * yoe + yoe.fdiv 4 - yoe.fdiv 100)
  let mp := (5 * doy + 2).fdiv 153
  let d := doy - (153 * mp + 2).fdiv 5 + 1
  let m := mp + (if mp < 10 then 3 else -9)
  (y + (if m ≤ 2 then 1 else 0), m, d)

/-- Model of `dt.year` on `datetime64[ms]`. -/
def dtYear (ms : Int) : Int := (civilFromDays (dtDays ms)).1

/-- Model of `dt.month` on `datetime64[ms]`. -/
def dtMonth (ms : Int) : Int := (civilFromDays (dtDays ms)).2.1

/-- Model of `dt.day` on `datetime64[ms]`. -/
def dtDay (ms : Int) : Int := (civilFromDays (dtDays ms)).2.2

/-- `x // .01 * .01` on a coordinate: floor-divide by 1/100, rescale.  Exact
arithmetic; the float rounding of the bucket boundary is not
modelled (no claim depends on it). -/
def bucketR (x : ℚ) : ℚ := (⌊x / (1 / 100)⌋ : ℚ) * (1 / 100)

/-- An output record of `add_features`: the canonical columns minus the two
timestamp columns, plus the derived columns, in the column order of the
notebook.  `day_of_week` is integer-valued (the kernel stores it in a float32
cell, exactly). -/
structure FeatRow where
  passenger_count : Int
  trip_distance : ℚ
  pickup_longitude : ℚ
  pickup_latitude : ℚ
  rate_code : Int
  dropoff_longitude : ℚ
  dropoff_latitude : ℚ
  fare_amount : ℚ
  hour : Int
  year : Int
  month : Int
  day : Int
  diff : Int
  pickup_latitude_r : ℚ
  pickup_longitude_r : ℚ
  dropoff_latitude_r : ℚ
  dropoff_longitude_r : ℚ
  h_distance : ℝ
  day_of_week : Int
  is_weekend : Bool

/-- The `add_features` of the notebook for one row: decompose the pickup
timestamp, take `diff` as the difference of the two timestamps after each is
`astype(int32)` (int32 arithmetic, hence the outer wrap), bucket the four
coordinates, drop the two timestamp columns, run the two kernels, and set
`is_weekend = day_of_week < 2`. -/
noncomputable def add_features (r : Row) : FeatRow :=
  let dow := day_of_the_week_kernel (dtDay r.pickup_datetime)
    (dtMonth r.pickup_datetime) (dtYear r.pickup_datetime)
  { passenger_count := r.passenger_count
    trip_distance := r.trip_distance
    pickup_longitude := r.pickup_longitude
    pickup_latitude := r.pickup_latitude
    rate_code := r.rate_code
    dropoff_longitude := r.dropoff_longitude
    dropoff_latitude := r.dropoff_latitude
    fare_amount := r.fare_amount
    hour := dtHour r.pickup_datetime
    year := dtYear r.pickup_datetime
    month := dtMonth r.pickup_datetime
    day := dtDay r.pickup_datetime
    diff := toInt32 (toInt32 r.dropoff_datetime - toInt32 r.pickup_datetime)
    pickup_latitude_r := bucketR r.pickup_latitude
    pickup_longitude_r := bucketR r.pickup_longitude
    dropoff_latitude_r := bucketR r.dropoff_latitude
    dropoff_longitude_r := bucketR r.dropoff_longitude
    h_distance := haversine_distance_kernel r.pickup_latitude
      r.pickup_longitude r.dropoff_latitude r.dropoff_longitude
    day_of_week := dow
    is_weekend := decide (dow < 2) }

/-- Column-name effect of `add_features` on a dataframe with the given
columns: the nine assignment columns are appended, the two timestamp
columns dropped, then the two `apply_rows` outputs and `is_weekend` are
appended. -/
def add_features_names (cols : List String) : List String :=
  ((cols ++ ["hour", "year", "month", "day", "diff", "pickup_latitude_r",
      "pickup_longitude_r", "dropoff_latitude_r", "dropoff_longitude_r"]).filter
    (fun c => !(c == "pickup_datetime" || c == "dropoff_datetime"))) ++
  ["h_distance", "day_of_week", "is_weekend"]

/-- Cells of the named column as a non-null datetime list (`none` when the
column is absent, has another dtype, or contains a null). -/
def colListDt (df : DataFrame) (n : String) : Option (List Int) :=
  match df.lookup n with
  | some (.dtCol vs) => vs.mapM id
  | _ => none

/-- Cells of the named column as a non-null integer list. -/
def colListI (df : DataFrame) (n : String) : Option (List Int) :=
  match df.lookup n with
  | some (.intCol _ vs) => vs.mapM id
  | _ => none

/-- Cells of the named column as a non-null float list. -/
def colListF (df : DataFrame) (n : String) : Option (List ℚ) :=
  match df.lookup n with
  | some (.floatCol _ vs) => vs.mapM id
  | _ => none

/-- Rows of a cleaned dataframe: the ten canonical columns, read positionally
(`none` when a column is missing, mistyped, null-bearing, or of deviating
length). -/
def dfRows (df : DataFrame) : Option (List Row) := do
  let pd ← colListDt df "pickup_datetime"
  let dd ← colListDt df "dropoff_datetime"
  let pc ← colListI df "passenger_count"
  let td ← colListF df "trip_distance"
  let plon ← colListF df "pickup_longitude"
  let plat ← colListF df "pickup_latitude"
  let rc ← colListI df "rate_code"
  let dlon ← colListF df "dropoff_longitude"
  let dlat ← colListF df "dropoff_latitude"
  let fa ← colListF df "fare_amount"
  let n := pd.length
  if dd.length = n ∧ pc.length = n ∧ td.length = n ∧ plon.length = n ∧
      plat.length = n ∧ rc.length = n ∧ dlon.length = n ∧ dlat.length = n ∧
      fa.length = n then
    some ((List.range n).map (fun i =>
      { pickup_datetime := pd.getD i 0
        dropoff_datetime := dd.getD i 0
        passenger_count := pc.getD i 0
        trip_distance := td.getD i 0
        pickup_longitude := plon.getD i 0
        pickup_latitude := plat.getD i 0
        rate_code := rc.getD i 0
        dropoff_longitude := dlon.getD i 0
        dropoff_latitude := dlat.getD i 0
        fare_amount := fa.getD i 0 }))
  else
    none

/-- The composed pipeline of the notebook workflow cell: `clean`, then the
outlier `query`, then `add_features` on every row (`map_partitions` applies
`add_features` to each partition; per-row composition is its semantics on
one partition). -/
noncomputable def pipeline (dtp : String → Option Int) (df : DataFrame) :
    Option (List FeatRow) :=
  match clean dtp df with
  | .error _ => none
  | .ok cdf => (dfRows cdf).map (fun rows =>
      (outlierFilter rows).map add_features)

/-- Days since the Unix epoch of a proleptic Gregorian date: the standard
days-from-civil conversion, inverse of `civilFromDays`; reference ground
truth for calendar claims. -/
def daysFromCivil (y0 m d : Int) : Int :=
  let y := y0 - (if m ≤ 2 then 1 else 0)
  let era := y.fdiv 400
  let yoe := y - era * 400
  let doy := (153 * (m + (if 2 < m then -3 else 9)) + 2).fdiv 5 + d - 1
  let doe := yoe * 365 + yoe.fdiv 4 - yoe.fdiv 100 + doy
  era * 146097 + doe - 719468

/-- Reference weekday of a Gregorian date, numbered with Saturday = 0,
Sunday = 1, ..., Friday = 6.  Anchor: `daysFromCivil 1970 1 1 = 0` and
1970-01-01 was a Thursday (index 5 in this numbering). -/
def dayOfWeekRef (y m d : Int) : Int :=
  (daysFromCivil y m d + 5).emod 7

/-- Length of a month in the Gregorian calendar. -/
def daysInMonth (y m : Int) : Int :=
  if m = 2 then
    (if y.emod 4 = 0 ∧ (y.emod 100 ≠ 0 ∨ y.emod 400 = 0) then 29 else 28)
  else if m = 4 ∨ m = 6 ∨ m = 9 ∨ m = 11 then 30
  else 31

/-- The day-of-week congruence exactly as the spec states it: shift is the
pre-adjustment month value when month < 3, else 0; the effective year drops
by one when month < 3; `y` is the effective year minus 2000, `c = 20`,
`m = month + shift + 1`; result
`(day + floor(2.6*m) + y + floor(y/4) + floor(c/4) - 2*c) mod 7`. -/
def day_of_week_spec (day month year : Int) : Int :=
  let shift : Int := if month < 3 then month else 0
  let effYear : Int := year - (if month < 3 then 1 else 0)
  let y : Int := effYear - 2000
  let c : Int := 20
  let m : Int := month + shift + 1
  (day + ⌊(2.6 : ℚ) * (m : ℚ)⌋ + y + ⌊(y : ℚ) / 4⌋ + ⌊(c : ℚ) / 4⌋ - 2 * c).emod 7

/-- The haversine formula exactly as the spec states it: convert both points
from degrees to radians, `a = sin²(Δlat/2) + cos(lat1)·cos(lat2)·sin²(Δlon/2)`,
distance `2·R·asin(√a)` with `R = 6371` km. -/
noncomputable def haversineSpecFormula (lat1 lon1 lat2 lon2 : ℝ) : ℝ :=
  let rlat1 := Real.pi / 180 * lat1
  let rlon1 := Real.pi / 180 * lon1
  let rlat2 := Real.pi / 180 * lat2
  let rlon2 := Real.pi / 180 * lon2
  let a := Real.sin ((rlat2 - rlat1) / 2) ^ 2 +
    Real.cos rlat1 * Real.cos rlat2 * Real.sin ((rlon2 - rlon1) / 2) ^ 2
  2 * 6371 * Real.arcsin (Real.sqrt a)

/-- Input representations under which `clean` reproduces the declared dtype
of a canonical column: a timestamp column arrives as strings or as
datetimes, an int32-declared column as integers, a float32-declared column
as floats or as strings.  (A string-typed int32-declared column, for
instance, is NOT compatible: `clean` would cast it to float32.) -/
def compatible (n : String) (c : ColData) : Bool :=
  match c with
  | .strCol _ =>
      (tsCol n && decide (declaredDType n = .dt64ms)) ||
      (!tsCol n && decide (declaredDType n = .f32))
  | .intCol _ _ => decide (declaredDType n = .i32)
  | .floatCol _ _ => decide (declaredDType n = .f32)
  | .dtCol _ => decide (declaredDType n = .dt64ms)

/-- C4 input: a record meeting every filter bound except fare (fare 501). -/
def row501 : Row :=
  { pickup_datetime := 0, dropoff_datetime := 600000, passenger_count := 1,
    trip_distance := 1, pickup_longitude := -74, pickup_latitude := 41,
    rate_code := 1, dropoff_longitude := -74, dropoff_latitude := 41,
    fare_amount := 501 }

/-- C4 input: the same record with fare 499.99, meeting every bound. -/
def row49999 : Row :=
  { row501 with fare_amount := 499.99 }

/-- C6 counterexample input: pickup at the epoch, dropoff 2^31 ms later, so
the true millisecond difference does not fit in int32. -/
def rowBig : Row :=
  { pickup_datetime := 0, dropoff_datetime := 2147483648, passenger_count := 1,
    trip_distance := 1, pickup_longitude := -74, pickup_latitude := 41,
    rate_code := 1, dropoff_longitude := -74, dropoff_latitude := 41,
    fare_amount := 10 }

/-- C6 witness input: a ten-minute trip, difference well inside int32. -/
def rowW : Row :=
  { rowBig with dropoff_datetime := 600000 }

/-- Timestamp parser used to instantiate concrete inputs (never consulted;
the concrete frames below carry no string-typed timestamp column). -/
def dtpNone : String → Option Int := fun _ => none

/-- C1 counterexample input: a single canonical column, arriving as
strings. -/
def dfCx : DataFrame := [("passenger_count", ColData.strCol [some "2"])]

/-- C2 counterexample input: a canonical float column containing a non-null
unparseable string. -/
def dfBad : DataFrame := [("fare_amount", ColData.strCol [some "abc"])]

/-- C1 witness input: every canonical column present, each in a
declaration-compatible native representation, one row. -/
def dfW : DataFrame :=
  [("pickup_datetime", ColData.dtCol [some 0]),
   ("dropoff_datetime", ColData.dtCol [some 60000]),
   ("passenger_count", ColData.intCol 64 [some 1]),
   ("trip_distance", ColData.floatCol 64 [some 1]),
   ("pickup_longitude", ColData.floatCol 64 [some (-74)]),
   ("pickup_latitude", ColData.floatCol 64 [some 41]),
   ("rate_code", ColData.intCol 64 [some 1]),
   ("dropoff_longitude", ColData.floatCol 64 [some (-74)]),
   ("dropoff_latitude", ColData.floatCol 64 [some 41]),
   ("fare_amount", ColData.floatCol 64 [some 10])]

/-- The output `clean` produces on `dfW`: same columns, 32-bit dtypes. -/
def dfWOut : DataFrame :=
  [("pickup_datetime", ColData.dtCol [some 0]),
   ("dropoff_datetime", ColData.dtCol [some 60000]),
   ("passenger_count", ColData.intCol 32 [some 1]),
   ("trip_distance", ColData.floatCol 32 [some 1]),
   ("pickup_longitude", ColData.floatCol 32 [some (-74)]),
   ("pickup_latitude", ColData.floatCol 32 [some 41]),
   ("rate_code", ColData.intCol 32 [some 1]),
   ("dropoff_longitude", ColData.floatCol 32 [some (-74)]),
   ("dropoff_latitude", ColData.floatCol 32 [some 41]),
   ("fare_amount", ColData.floatCol 32 [some 10])]

/-- Unfolding of the filter predicate into the six range conjuncts. -/
theorem passesFilter_iff (r : Row) : passesFilter r = true ↔
    0 < r.fare_amount ∧ r.fare_amount < 500 ∧
    0 < r.passenger_count ∧ r.passenger_count < 6 ∧
    -75 < r.pickup_longitude ∧ r.pickup_longitude < -73 ∧
    -75 < r.dropoff_longitude ∧ r.dropoff_longitude < -73 ∧
    40 < r.pickup_latitude ∧ r.pickup_latitude < 42 ∧
    40 < r.dropoff_latitude ∧ r.dropoff_latitude < 42 := by
  simp [passesFilter, and_assoc]

/-- The fare-501 record fails the filter predicate. -/
theorem row501_fails : passesFilter row501 = false := by
  rw [Bool.eq_false_iff]
  intro h
  rw [passesFilter_iff] at h
  have h2 := h.2.1
  rw [row501] at h2
  norm_num at h2

/-- The fare-499.99 record passes the filter predicate. -/
theorem row49999_passes : passesFilter row49999 = true := by
  rw [passesFilter_iff]
  refine ⟨?_, ?_, ?_, ?_, ?_, ?_, ?_, ?_, ?_, ?_, ?_, ?_⟩ <;>
    simp [row49999, row501] <;> norm_num

/-- C4: the Outlier Filter retains exactly the records satisfying the
conjunction of the six strict range predicates (fare in (0,500), passenger
count in (0,6), longitudes in (-75,-73), latitudes in (40,42)); a record
with fare 501 is excluded and one with fare 499.99 and all other bounds met
is retained. -/
theorem outlier_filter_ranges :
    (∀ (rows : List Row) (r : Row),
      r ∈ outlierFilter rows ↔ r ∈ rows ∧
        (0 < r.fare_amount ∧ r.fare_amount < 500 ∧
         0 < r.passenger_count ∧ r.passenger_count < 6 ∧
         -75 < r.pickup_longitude ∧ r.pickup_longitude < -73 ∧
         -75 < r.dropoff_longitude ∧ r.dropoff_longitude < -73 ∧
         40 < r.pickup_latitude ∧ r.pickup_latitude < 42 ∧
         40 < r.dropoff_latitude ∧ r.dropoff_latitude < 42)) ∧
    outlierFilter [row501] = [] ∧
    outlierFilter [row49999] = [row49999] := by
  refine ⟨fun rows r => ?_, ?_, ?_⟩
  · unfold outlierFilter
    rw [List.mem_filter]
    exact and_congr_right fun _ => passesFilter_iff r
  · simp [outlierFilter, List.filter_cons, row501_fails]
  · simp [outlierFilter, List.filter_cons, row49999_passes]

/-- C7: the Outlier Filter is idempotent: filtering an already-filtered
record set changes nothing. -/
theorem outlier_filter_idempotent (rows : List Row) :
    outlierFilter (outlierFilter rows) = outlierFilter rows := by
  unfold outlierFilter
  induction rows with
  | nil => rfl
  | cons r rs ih =>
      by_cases h : passesFilter r = true <;>
        simp [List.filter_cons, h, ih]

/-- C9: the composed pipeline (Column Normalizer, Outlier Filter, Feature
Deriver) is deterministic: it is a pure function of its input partition, so
re-running it on the same input yields identical output.  The embedding is
a function because no stage of the source consults any state, clock or
random source outside its argument. -/
theorem pipeline_deterministic (dtp : String → Option Int) (df : DataFrame) :
    pipeline dtp df = pipeline dtp df := rfl

/-- Floor division of integers agrees with the rational floor. -/
theorem fdiv_eq_ratFloor (a b : Int) (hb : 0 ≤ b) :
    a.fdiv b = ⌊(a : ℚ) / (b : ℚ)⌋ := by
  obtain ⟨d, rfl⟩ := Int.eq_ofNat_of_zero_le hb
  rw [show (((d : ℤ)) : ℚ) = ((d : ℕ) : ℚ) by push_cast; ring]
  rw [Rat.floor_intCast_div_natCast, Int.fdiv_eq_ediv a (Int.natCast_nonneg d)]

/-- The kernel computes the spec congruence verbatim. -/
theorem kernel_eq_spec (d m y : Int) :
    day_of_the_week_kernel d m y = day_of_week_spec d m y := by
  have hA : ∀ k : Int, (26 * k).fdiv 10 = ⌊(2.6 : ℚ) * (k : ℚ)⌋ := by
    intro k
    rw [fdiv_eq_ratFloor _ 10 (by norm_num)]
    congr 1
    rw [show (2.6 : ℚ) = 26 / 10 by norm_num]
    push_cast
    ring
  have hB : ∀ k : Int, k.fdiv 4 = ⌊(k : ℚ) / 4⌋ := by
    intro k
    rw [fdiv_eq_ratFloor _ 4 (by norm_num)]
    norm_num
  simp only [day_of_the_week_kernel, day_of_week_spec]
  rw [hA, hB, hB]

/-- C3: for records with year 2000–2099 the derived day_of_week equals the
stated congruence (shift, effective year, y, c = 20, m = month + shift + 1,
result `(day + floor(2.6*m) + y + floor(y/4) + floor(c/4) - 2*c) mod 7`),
lies in 0–6, and on day 15, month 6, year 2014 equals 1, the
hand-computed value of the congruence. -/
theorem day_of_week_congruence (d m y : Int)
    (_hy1 : 2000 ≤ y) (_hy2 : y ≤ 2099) :
    day_of_the_week_kernel d m y = day_of_week_spec d m y ∧
    0 ≤ day_of_the_week_kernel d m y ∧
    day_of_the_week_kernel d m y < 7 ∧
    day_of_the_week_kernel 15 6 2014 = 1 := by
  refine ⟨kernel_eq_spec d m y, ?_, ?_, by decide⟩
  · simp only [day_of_the_week_kernel]
    exact Int.emod_nonneg _ (by norm_num)
  · simp only [day_of_the_week_kernel]
    exact Int.emod_lt_of_pos _ (by norm_num)

/-- C3 witness: the congruence claim instantiated at day 15, month 6,
year 2014. -/
theorem day_of_week_congruence_witness :
    day_of_the_week_kernel 15 6 2014 = day_of_week_spec 15 6 2014 ∧
    0 ≤ day_of_the_week_kernel 15 6 2014 ∧
    day_of_the_week_kernel 15 6 2014 < 7 ∧
    day_of_the_week_kernel 15 6 2014 = 1 :=
  day_of_week_congruence 15 6 2014 (by norm_num) (by norm_num)

/-- C6 (amended): the derived `diff` column is the difference of the two
millisecond timestamps reduced to int32 (each timestamp is
`astype(int32)` first and the subtraction itself is int32 arithmetic, which
collapses to one twos-complement wrap of the true difference); it equals
the true millisecond difference exactly when that difference fits in
int32. -/
theorem diff_int32_wrap (r : Row) :
    (add_features r).diff = toInt32 (r.dropoff_datetime - r.pickup_datetime) ∧
    (-2147483648 ≤ r.dropoff_datetime - r.pickup_datetime →
      r.dropoff_datetime - r.pickup_datetime < 2147483648 →
      (add_features r).diff = r.dropoff_datetime - r.pickup_datetime) := by
  have hproj : (add_features r).diff =
      toInt32 (toInt32 r.dropoff_datetime - toInt32 r.pickup_datetime) := rfl
  have hpow31 : (2 : Int) ^ 31 = 2147483648 := by norm_num
  have hpow32 : (2 : Int) ^ 32 = 4294967296 := by norm_num
  have hwrap : toInt32 (toInt32 r.dropoff_datetime - toInt32 r.pickup_datetime) =
      toInt32 (r.dropoff_datetime - r.pickup_datetime) := by
    unfold toInt32
    rw [hpow31, hpow32]
    omega
  refine ⟨hproj.trans hwrap, fun h1 h2 => ?_⟩
  rw [hproj, hwrap]
  unfold toInt32
  rw [hpow31, hpow32]
  omega

/-- C6 witness: on a ten-minute trip the stored `diff` is the true
millisecond difference. -/
theorem diff_int32_wrap_witness :
    (add_features rowW).diff = rowW.dropoff_datetime - rowW.pickup_datetime :=
  (diff_int32_wrap rowW).2 (by decide) (by decide)

/-- C6 counterexample: with pickup at the epoch and dropoff 2^31 ms later,
the stored `diff` is not the difference of the millisecond timestamp
representations (it wraps to -2^31). -/
theorem diff_wrap_counterexample :
    (add_features rowBig).diff ≠ rowBig.dropoff_datetime - rowBig.pickup_datetime := by
  have hproj : (add_features rowBig).diff =
      toInt32 (toInt32 2147483648 - toInt32 0) := rfl
  rw [hproj]
  decide

/-- C8: on every normalized, filtered record the Feature Deriver removes the
two source timestamp columns, adds hour, year, month, day, diff, the four
coordinate bucket columns, h_distance, day_of_week and is_weekend (the last
true exactly when day_of_week < 2), and leaves every other cleaned column
unchanged.  The final conjunct checks the column-name effect on the
canonical schema: both timestamp names gone, the derived names appended. -/
theorem add_features_frame :
    (∀ r : Row,
      (add_features r).passenger_count = r.passenger_count ∧
      (add_features r).trip_distance = r.trip_distance ∧
      (add_features r).pickup_longitude = r.pickup_longitude ∧
      (add_features r).pickup_latitude = r.pickup_latitude ∧
      (add_features r).rate_code = r.rate_code ∧
      (add_features r).dropoff_longitude = r.dropoff_longitude ∧
      (add_features r).dropoff_latitude = r.dropoff_latitude ∧
      (add_features r).fare_amount = r.fare_amount ∧
      (add_features r).hour = dtHour r.pickup_datetime ∧
      (add_features r).year = dtYear r.pickup_datetime ∧
      (add_features r).month = dtMonth r.pickup_datetime ∧
      (add_features r).day = dtDay r.pickup_datetime ∧
      (add_features r).diff =
        toInt32 (toInt32 r.dropoff_datetime - toInt32 r.pickup_datetime) ∧
      (add_features r).pickup_latitude_r = bucketR r.pickup_latitude ∧
      (add_features r).pickup_longitude_r = bucketR r.pickup_longitude ∧
      (add_features r).dropoff_latitude_r = bucketR r.dropoff_latitude ∧
      (add_features r).dropoff_longitude_r = bucketR r.dropoff_longitude ∧
      (add_features r).h_distance = haversine_distance_kernel r.pickup_latitude
        r.pickup_longitude r.dropoff_latitude r.dropoff_longitude ∧
      (add_features r).day_of_week = day_of_the_week_kernel
        (dtDay r.pickup_datetime) (dtMonth r.pickup_datetime)
        (dtYear r.pickup_datetime) ∧
      ((add_features r).is_weekend = true ↔ (add_features r).day_of_week < 2)) ∧
    add_features_names mustHaveNames =
      ["passenger_count", "trip_distance", "pickup_longitude",
       "pickup_latitude", "rate_code", "dropoff_longitude",
       "dropoff_latitude", "fare_amount", "hour", "year", "month", "day",
       "diff", "pickup_latitude_r", "pickup_longitude_r",
       "dropoff_latitude_r", "dropoff_longitude_r", "h_distance",
       "day_of_week", "is_weekend"] := by
  refine ⟨fun r => ?_, by decide⟩
  refine ⟨rfl, rfl, rfl, rfl, rfl, rfl, rfl, rfl, rfl, rfl, rfl, rfl, rfl,
    rfl, rfl, rfl, rfl, rfl, rfl, ?_⟩
  simp [add_features]

/-- C2 (amended): for a non-timestamp string-typed numeric column whose
non-null cells all parse as numbers, `clean` succeeds (no row is rejected:
the output has one cell per input cell) and every MISSING (null) cell is
normalized to -1 as float32: nulls are filled with the string "-1", which
converts to -1.  (A non-null unparseable cell is outside this statement:
the fill touches only nulls, so such a cell reaches the float cast
unchanged, where it fails rather than becoming -1.) -/
theorem clean_missing_sentinel (dtp : String → Option Int) (n : String)
    (vs : List (Option String)) (hn : tsCol n = false)
    (hp : (vs.map (fun v => v.getD "-1")).all
      (fun s => (parseFloatQ s).isSome) = true) :
    cleanCol dtp n (ColData.strCol vs) =
      .ok (ColData.floatCol 32 ((vs.map (fun v => v.getD "-1")).map parseFloatQ)) ∧
    ∀ v ∈ vs, v = none → parseFloatQ (v.getD "-1") = some (-1) := by
  constructor
  · simp [cleanCol, hn, castStrToFloat32, hp, Except.map]
  · intro v _ hv
    rw [hv]
    decide

/-- C2 witness: a two-cell fare column with one null and one parseable cell
cleans to [-1, 2]; the null cell maps to -1. -/
theorem clean_missing_sentinel_witness :
    cleanCol dtpNone "fare_amount" (ColData.strCol [none, some "2"]) =
      .ok (ColData.floatCol 32 [some (-1), some 2]) ∧
    parseFloatQ ((none : Option String).getD "-1") = some (-1) :=
  ⟨((clean_missing_sentinel dtpNone "fare_amount" [none, some "2"]
      (by decide) (by decide)).1).trans (by decide),
   (clean_missing_sentinel dtpNone "fare_amount" [none, some "2"]
      (by decide) (by decide)).2 none (by decide) rfl⟩

/-- C2 counterexample: a record whose fare field is the non-null,
unparseable string "abc" makes the Column Normalizer raise out of the
float cast instead of substituting -1: the fill of the string "-1"
applies only to nulls. -/
theorem clean_unparseable_counterexample :
    clean dtpNone dfBad = .error "could not convert string to float" := by
  decide

/-- Bind on a success is application. -/
theorem except_bind_ok {ε α β : Type} (a : α) (g : α → Except ε β) :
    (Except.ok a >>= g) = g a := rfl

/-- Bind on a failure short-circuits. -/
theorem except_bind_error {ε α β : Type} (e : ε) (g : α → Except ε β) :
    ((Except.error e : Except ε α) >>= g) = .error e := rfl

/-- Pure is success. -/
theorem except_pure_eq {ε α : Type} (a : α) :
    (pure a : Except ε α) = .ok a := rfl

/-- Map on a success applies the function. -/
theorem except_map_ok {ε α β : Type} (f : α → β) (a : α) :
    (Except.ok a : Except ε α).map f = .ok (f a) := rfl

/-- Map on a failure short-circuits. -/
theorem except_map_error {ε α β : Type} (f : α → β) (e : ε) :
    (Except.error e : Except ε α).map f = .error e := rfl

/-- The per-column traversal of `clean` keeps every column name: on success
the output name list is the input name list. -/
theorem mapM_clean_fst (dtp : String → Option Int) (l out : List (String × ColData))
    (h : l.mapM (fun p => (cleanCol dtp p.1 p.2).map (fun c => (p.1, c))) = .ok out) :
    out.map Prod.fst = l.map Prod.fst := by
  induction l generalizing out with
  | nil =>
      rw [List.mapM_nil, except_pure_eq] at h
      cases h
      rfl
  | cons hd tl ih =>
      rw [List.mapM_cons] at h
      cases hf : cleanCol dtp hd.1 hd.2 with
      | error e =>
          rw [hf, except_map_error, except_bind_error] at h
          exact Except.noConfusion h
      | ok c =>
          rw [hf, except_map_ok, except_bind_ok] at h
          cases ht : tl.mapM (fun p => (cleanCol dtp p.1 p.2).map (fun c => (p.1, c))) with
          | error e =>
              rw [ht, except_bind_error] at h
              exact Except.noConfusion h
          | ok rest =>
              rw [ht, except_bind_ok, except_pure_eq] at h
              cases h
              simp [ih rest ht]

/-- Every output column of the traversal of `clean` comes from an input
column of the same name via a successful per-column coercion. -/
theorem mapM_clean_mem (dtp : String → Option Int) (l out : List (String × ColData))
    (h : l.mapM (fun p => (cleanCol dtp p.1 p.2).map (fun c => (p.1, c))) = .ok out) :
    ∀ q ∈ out, ∃ p ∈ l, p.1 = q.1 ∧ cleanCol dtp p.1 p.2 = .ok q.2 := by
  induction l generalizing out with
  | nil =>
      rw [List.mapM_nil, except_pure_eq] at h
      cases h
      intro q hq
      cases hq
  | cons hd tl ih =>
      rw [List.mapM_cons] at h
      cases hf : cleanCol dtp hd.1 hd.2 with
      | error e =>
          rw [hf, except_map_error, except_bind_error] at h
          exact Except.noConfusion h
      | ok c =>
          rw [hf, except_map_ok, except_bind_ok] at h
          cases ht : tl.mapM (fun p => (cleanCol dtp p.1 p.2).map (fun c => (p.1, c))) with
          | error e =>
              rw [ht, except_bind_error] at h
              exact Except.noConfusion h
          | ok rest =>
              rw [ht, except_bind_ok, except_pure_eq] at h
              cases h
              intro q hq
              rcases List.mem_cons.mp hq with hq1 | hq2
              · exact ⟨hd, List.mem_cons_self hd tl, by rw [hq1], by rw [hq1]; exact hf⟩
              · obtain ⟨p, hp, hn, hcc⟩ := ih rest ht q hq2
                exact ⟨p, List.mem_cons_of_mem hd hp, hn, hcc⟩

/-- A declaration-compatible input column cleans to its declared dtype. -/
theorem cleanCol_dtype (dtp : String → Option Int) (n : String) (c c2 : ColData)
    (hc : compatible n c = true) (h : cleanCol dtp n c = .ok c2) :
    dtypeOf c2 = declaredDType n := by
  cases c with
  | strCol vs =>
      simp only [compatible, Bool.or_eq_true, Bool.and_eq_true,
        decide_eq_true_eq, Bool.not_eq_true'] at hc
      rcases hc with ⟨hts, hd⟩ | ⟨hts, hd⟩
      · simp only [cleanCol, hts, if_true] at h
        cases hdt : castStrToDt dtp vs with
        | error e => rw [hdt] at h; exact Except.noConfusion h
        | ok l =>
            rw [hdt] at h
            cases h
            rw [hd]
            rfl
      · simp only [cleanCol, hts, Bool.false_eq_true, if_false] at h
        cases hfl : castStrToFloat32 vs with
        | error e => rw [hfl] at h; exact Except.noConfusion h
        | ok l =>
            rw [hfl] at h
            cases h
            rw [hd]
            rfl
  | intCol w vs =>
      simp only [compatible, decide_eq_true_eq] at hc
      simp only [cleanCol] at h
      cases h
      rw [hc]
      rfl
  | floatCol w vs =>
      simp only [compatible, decide_eq_true_eq] at hc
      simp only [cleanCol] at h
      cases h
      rw [hc]
      rfl
  | dtCol vs =>
      simp only [compatible, decide_eq_true_eq] at hc
      simp only [cleanCol] at h
      cases h
      rw [hc]
      rfl

/-- C1 (amended): when `clean` succeeds, the output column list is exactly
the (trimmed, lowercased, alias-renamed) input columns that lie in the
canonical schema, in input order — a subset of the schema; canonical
columns absent from the input are NOT added.  When additionally every kept
input column arrives in a declaration-compatible representation, every
output column carries exactly its declared dtype (a string-typed
non-timestamp column, e.g., would instead come out float32 regardless of
its declared type). -/
theorem clean_columns_amended (dtp : String → Option Int) (df out : DataFrame)
    (hok : clean dtp df = .ok out) :
    out.map Prod.fst =
      ((renameCols df).filter (fun p => mustHaveNames.contains p.1)).map Prod.fst ∧
    ((∀ p ∈ (renameCols df).filter (fun p => mustHaveNames.contains p.1),
        compatible p.1 p.2 = true) →
      ∀ q ∈ out, dtypeOf q.2 = declaredDType q.1) := by
  unfold clean at hok
  refine ⟨mapM_clean_fst dtp _ out hok, fun hcomp q hq => ?_⟩
  obtain ⟨p, hp, hname, hcc⟩ := mapM_clean_mem dtp _ out hok q hq
  rw [← hname]
  exact cleanCol_dtype dtp p.1 p.2 q.2 (hcomp p hp) hcc

/-- C1 witness: on a one-row frame carrying all ten canonical columns in
native representations, `clean` succeeds, keeps exactly the canonical
names, and types `passenger_count` as declared. -/
theorem clean_columns_amended_witness :
    dfWOut.map Prod.fst =
      ((renameCols dfW).filter (fun p => mustHaveNames.contains p.1)).map Prod.fst ∧
    dtypeOf (ColData.intCol 32 [some 1]) = declaredDType "passenger_count" :=
  ⟨(clean_columns_amended dtpNone dfW dfWOut (by decide)).1,
   (clean_columns_amended dtpNone dfW dfWOut (by decide)).2 (by decide)
     ("passenger_count", ColData.intCol 32 [some 1]) (by decide)⟩

/-- C1 counterexample: on an input holding only a string-typed
`passenger_count` column, the output of `clean` consists of that single
column typed float32 — the other nine canonical columns (e.g.
`fare_amount`) are missing from the output, and the one present column is
not of its declared dtype int32. -/
theorem clean_schema_counterexample :
    (clean dtpNone dfCx).map (fun o => o.map (fun p => (p.1, dtypeOf p.2))) =
      .ok [("passenger_count", DType.f32)] ∧
    "fare_amount" ∈ mustHaveNames ∧
    "fare_amount" ∉ ["passenger_count"] ∧
    declaredDType "passenger_count" = DType.i32 ∧
    DType.f32 ≠ DType.i32 :=
  ⟨by decide, by decide, by decide, by decide, by decide⟩

/-- C5: the kernel computes the haversine formula of the spec verbatim
(radian conversion, `a`, `2*R*asin(sqrt a)` with R = 6371); identical pickup
and dropoff points give distance 0 (in particular the repeated point
(40.7128, -74.0060)); pickup (0,0) to dropoff (0,90) in degrees gives a
quarter great-circle, between 10007.5 and 10007.6 km. -/
theorem haversine_properties :
    (∀ lat1 lon1 lat2 lon2 : ℝ,
      haversine_distance_kernel lat1 lon1 lat2 lon2 =
        haversineSpecFormula lat1 lon1 lat2 lon2) ∧
    (∀ lat lon : ℝ, haversine_distance_kernel lat lon lat lon = 0) ∧
    haversine_distance_kernel 40.7128 (-74.0060) 40.7128 (-74.0060) = 0 ∧
    10007.5 < haversine_distance_kernel 0 0 0 90 ∧
    haversine_distance_kernel 0 0 0 90 < 10007.6 := by
  have hid : ∀ lat lon : ℝ, haversine_distance_kernel lat lon lat lon = 0 := by
    intro lat lon
    simp [haversine_distance_kernel, sub_self, Real.sin_zero, Real.sqrt_zero,
      Real.arcsin_zero]
  have hval : haversine_distance_kernel 0 0 0 90 = 2 * (Real.pi / 4) * 6371 := by
    simp only [haversine_distance_kernel]
    rw [show (Real.pi / 180 * (0:ℝ) - Real.pi / 180 * 0) / 2 = 0 by ring]
    rw [show (Real.pi / 180 * (90:ℝ) - Real.pi / 180 * 0) / 2 = Real.pi / 4 by ring]
    rw [show Real.pi / 180 * (0:ℝ) = 0 by ring]
    rw [Real.sin_zero, Real.cos_zero]
    rw [show ((0:ℝ) ^ 2 + 1 * 1 * Real.sin (Real.pi / 4) ^ 2) =
        Real.sin (Real.pi / 4) ^ 2 by ring]
    rw [Real.sin_pi_div_four]
    rw [Real.sqrt_sq (by positivity : (0:ℝ) ≤ Real.sqrt 2 / 2)]
    rw [← Real.sin_pi_div_four]
    rw [Real.arcsin_sin (by linarith [Real.pi_pos]) (by linarith [Real.pi_pos])]
  refine ⟨?_, hid, hid _ _, ?_, ?_⟩
  · intro lat1 lon1 lat2 lon2
    simp only [haversine_distance_kernel, haversineSpecFormula]
    ring
  · rw [hval]
    nlinarith [Real.pi_gt_d6]
  · rw [hval]
    nlinarith [Real.pi_lt_d6]

/-- The reference day count is affine in the day of the month. -/
theorem daysFromCivil_day (y m d : Int) :
    daysFromCivil y m d = daysFromCivil y m 0 + d := by
  simp only [daysFromCivil]
  split_ifs <;> ring

/-- For month at least 3 the kernel is the day plus a month/year offset,
mod 7. -/
theorem kernel_march_form (d m y : Int) (hm : 3 ≤ m) :
    day_of_the_week_kernel d m y =
      (d + ((26 * (m + 1)).fdiv 10 + (y - 2000) + (y - 2000).fdiv 4 - 35)).emod 7 := by
  simp only [day_of_the_week_kernel]
  rw [if_neg (by omega : ¬ m < 3), if_neg (by omega : ¬ m < 3)]
  rw [show m + 0 + 1 = m + 1 by ring]
  rw [show y - 0 - 2000 = y - 2000 by ring]
  rw [show ((20 : Int).fdiv 4) = 5 by decide]
  congr 1
  ring

/-- Adding a common term preserves equality of residues. -/
theorem emod_add_cancel {n d A B : Int} (h : A % n = B % n) :
    (d + A) % n = (d + B) % n := by
  rw [Int.add_emod, h, ← Int.add_emod]

set_option maxRecDepth 8000 in
/-- The month/year offset of the kernel agrees mod 7 with the reference
day-zero count plus the weekday anchor, for every year 2000–2099 and month
3–12 (1000 cases, checked by evaluation). -/
theorem kernel_offset_check : ∀ yy : Nat, yy < 100 → ∀ mm : Nat, mm < 10 →
    (((26 * ((mm : Int) + 3 + 1)).fdiv 10 + (yy : Int) + (yy : Int).fdiv 4 - 35).emod 7 =
      (daysFromCivil (2000 + (yy : Int)) ((mm : Int) + 3) 0 + 5).emod 7) := by
  decide

/-- C10: for every Gregorian date with month ≥ 3 and year 2000–2099 the
kernel day-of-week equals the true weekday under Saturday = 0, Sunday = 1,
..., Friday = 6, so the weekend flag (day_of_week < 2) holds exactly on
Saturdays and Sundays; for month < 3 the correspondence is not guaranteed:
January 15 2014, a Wednesday (reference 4), gets kernel value 3. -/
theorem day_of_week_calendar_correct :
    (∀ y m d : Int, 2000 ≤ y → y ≤ 2099 → 3 ≤ m → m ≤ 12 →
      1 ≤ d → d ≤ daysInMonth y m →
      day_of_the_week_kernel d m y = dayOfWeekRef y m d ∧
      (day_of_the_week_kernel d m y < 2 ↔ dayOfWeekRef y m d < 2)) ∧
    day_of_the_week_kernel 15 1 2014 ≠ dayOfWeekRef 2014 1 15 := by
  refine ⟨fun y m d hy1 hy2 hm1 hm2 _hd1 _hd2 => ?_, by decide⟩
  obtain ⟨yy, rfl⟩ : ∃ yy : Nat, y = 2000 + (yy : Int) :=
    ⟨(y - 2000).toNat, by omega⟩
  obtain ⟨mm, rfl⟩ : ∃ mm : Nat, m = (mm : Int) + 3 :=
    ⟨(m - 3).toNat, by omega⟩
  have hcore := kernel_offset_check yy (by omega) mm (by omega)
  have heq : day_of_the_week_kernel d ((mm : Int) + 3) (2000 + (yy : Int)) =
      dayOfWeekRef (2000 + (yy : Int)) ((mm : Int) + 3) d := by
    rw [kernel_march_form d _ _ (by omega)]
    rw [show ((2000 + (yy : Int)) - 2000) = (yy : Int) by ring]
    unfold dayOfWeekRef
    rw [daysFromCivil_day]
    rw [show daysFromCivil (2000 + (yy : Int)) ((mm : Int) + 3) 0 + d + 5 =
        d + (daysFromCivil (2000 + (yy : Int)) ((mm : Int) + 3) 0 + 5) by ring]
    exact emod_add_cancel hcore
  exact ⟨heq, by rw [heq]⟩

/-- C10 witness: June 15 2014 (a Sunday) instantiates the calendar claim:
kernel and reference weekday agree. -/
theorem day_of_week_calendar_correct_witness :
    day_of_the_week_kernel 15 6 2014 = dayOfWeekRef 2014 6 15 :=
  (day_of_week_calendar_correct.1 2014 6 15 (by norm_num) (by norm_num)
    (by norm_num) (by norm_num) (by norm_num) (by decide)).1

end NycTaxi
